import Mathlib

/-!
Shallow embedding of the LiveScribe live-transcription client
(src/App.tsx and its CRM variant src/unnamed/part_001): the transcript
reconciler (updateLiveTranscript and the onmessage callback), the session
lifecycle (startSession, cleanupSession, stopUserAction, the
onclose/onerror callbacks and the reconnect timer), and the audio
resampler.  Fresh values produced at runtime (Date.now ids, formatTime
timestamps, RMS volume) are passed in as parameters; React state and refs
are modelled as one explicit record threaded through every handler.
-/

namespace LiveTra

/-- Speaker field of a transcript entry (src/types.ts). -/
inductive Speaker
  | user
  | model
deriving DecidableEq, Repr

/-- TranscriptEntry (src/types.ts). -/
structure TranscriptEntry where
  id : String
  timestamp : String
  speaker : Speaker
  text : String
  isPartial : Bool
deriving DecidableEq, Repr

/-- ConnectionStatus (src/types.ts). -/
inductive ConnectionStatus
  | DISCONNECTED
  | CONNECTING
  | CONNECTED
  | ERROR
deriving DecidableEq, Repr

/-- updateLiveTranscript (src/App.tsx lines 99-124).  The fresh id
(Date.now plus Math.random) and the formatTime timestamp of the candidate
new entry are the parameters newId and ts.  If the last entry is partial
its text is replaced (and it is finalized when isFinal); otherwise a new
entry is appended. -/
def updateLiveTranscript (newId ts : String) (text : String) (isFinal : Bool)
    (prev : List TranscriptEntry) : List TranscriptEntry :=
  let newEntry : TranscriptEntry :=
    { id := newId, timestamp := ts, speaker := .user, text := text, isPartial := !isFinal }
  match prev.getLast? with
  | some last =>
      if last.isPartial then
        if isFinal then
          prev.dropLast ++ [{ last with text := text, isPartial := false }]
        else
          prev.dropLast ++ [{ last with text := text }]
      else
        prev ++ [newEntry]
  | none => prev ++ [newEntry]

/-- The fields of a LiveServerMessage that the onmessage callback reads:
serverContent.inputTranscription.text (absent modelled as none) and
serverContent.turnComplete. -/
structure ServerMessage where
  inputTranscription : Option String
  turnComplete : Bool
deriving DecidableEq, Repr

/-- The state the reconciler owns: the accumulation buffer
currentInputTransRef and the liveTranscript list. -/
structure ReconcilerState where
  currentInputTrans : String
  liveTranscript : List TranscriptEntry
deriving DecidableEq, Repr

/-- The onmessage callback (src/App.tsx lines 231-248).  A nonempty text
delta is appended to the accumulation buffer and the whole buffer is
pushed as a partial update; a truthy turnComplete with a nonempty buffer
finalizes the buffer and clears it.  Empty strings are falsy in the
source, hence the nonemptiness guards. -/
def onmessage (newId ts : String) (msg : ServerMessage) (s : ReconcilerState) :
    ReconcilerState :=
  let s1 :=
    match msg.inputTranscription with
    | some text =>
        if text ≠ "" then
          let buf := s.currentInputTrans ++ text
          { currentInputTrans := buf,
            liveTranscript := updateLiveTranscript newId ts buf false s.liveTranscript }
        else s
    | none => s
  if msg.turnComplete then
    if s1.currentInputTrans ≠ "" then
      { currentInputTrans := "",
        liveTranscript :=
          updateLiveTranscript newId ts s1.currentInputTrans true s1.liveTranscript }
    else s1
  else s1

/-- Reconciler state at session start: empty buffer, empty transcript. -/
def initialReconciler : ReconcilerState := ⟨"", []⟩

/-- Feeding a list of partial-text deltas to onmessage, one message per
delta, with a supply sup of fresh (id, timestamp) pairs indexed by the
step counter k. -/
def runDeltas (sup : Nat → String × String) : Nat → List String → ReconcilerState →
    ReconcilerState
  | _, [], s => s
  | k, d :: ds, s =>
      runDeltas sup (k + 1) ds (onmessage (sup k).1 (sup k).2 ⟨some d, false⟩ s)

/-- Invariant of the accumulation phase of one utterance: the buffer holds
b, and the transcript is empty when b is empty, else exactly one partial
entry carrying b. -/
def accLike (b : String) (s : ReconcilerState) : Prop :=
  s.currentInputTrans = b ∧
  ((b = "" ∧ s.liveTranscript = []) ∨
   (b ≠ "" ∧ ∃ i t, s.liveTranscript =
      [{ id := i, timestamp := t, speaker := .user, text := b, isPartial := true }]))

/-- Kinds of frame pushed through the session send path: real resampled
audio from the onaudioprocess callback, or a synthetic keep-alive frame. -/
inductive FrameKind
  | audio
  | keepAlive
deriving DecidableEq, Repr

/-- The live/diarized tab selector. -/
inductive Tab
  | live
  | diarized
deriving DecidableEq, Repr

/-- The session-relevant React state and refs of src/App.tsx in one
record: status, errorMsg, activeTab, the reconciler fields, the
auto-reconnect refs, the audio resources, the local recorder, the
transport handle, and two observation fields (connectCount counts
ai.live.connect calls, i.e. transport handle creations; sentFrames logs
frames pushed through the session send path). -/
structure AppState where
  status : ConnectionStatus
  errorMsg : Option String
  activeTab : Tab
  liveTranscript : List TranscriptEntry
  currentInputTrans : String
  isRecordingActive : Bool
  reconnectDelay : Option Nat
  audioContextOpen : Bool
  micStreamActive : Bool
  sourceNodeConnected : Bool
  processorConnected : Bool
  recorderActive : Bool
  audioChunks : Nat
  mimeType : String
  audioBlob : Option (Nat × String)
  sessionLive : Bool
  connectPending : Bool
  connectCount : Nat
  volume : ℚ
  sentFrames : List FrameKind
deriving DecidableEq, Repr

/-- finalizeRecording (src/App.tsx lines 333-339): if any local audio
chunks were recorded, publish them as the audio blob with the recorder
mime type. -/
def finalizeRecording (s : AppState) : AppState :=
  if s.audioChunks > 0 then { s with audioBlob := some (s.audioChunks, s.mimeType) } else s

/-- cleanupSession (src/App.tsx lines 289-331).  Finalizes a pending
partial transcript entry, disconnects the audio nodes, on fullStop also
stops the microphone tracks and the recorder, closes the audio context,
closes the transport handle, clears the pending reconnect timer and
resets the volume.  newId and ts are the fresh id and timestamp used if a
partial entry has to be finalized. -/
def cleanupSession (newId ts : String) (fullStop : Bool) (s : AppState) : AppState :=
  let s1 :=
    if s.currentInputTrans ≠ "" then
      { s with
        liveTranscript :=
          updateLiveTranscript newId ts s.currentInputTrans true s.liveTranscript,
        currentInputTrans := "" }
    else s
  let s2 := { s1 with sourceNodeConnected := false, processorConnected := false }
  let s3 :=
    if fullStop then { s2 with micStreamActive := false, recorderActive := false } else s2
  { s3 with audioContextOpen := false, sessionLive := false,
            reconnectDelay := none, volume := 0 }

/-- stopUserAction (src/App.tsx lines 341-349): clear the recording-active
latch first, stop the recorder, run a full cleanup, set the status to
DISCONNECTED and publish the recorded audio. -/
def stopUserAction (newId ts : String) (s : AppState) : AppState :=
  let s1 := { s with isRecordingActive := false }
  let s2 := if s1.recorderActive then { s1 with recorderActive := false } else s1
  let s3 := cleanupSession newId ts true s2
  finalizeRecording { s3 with status := .DISCONNECTED }

/-- The body of startSession (src/App.tsx lines 131-280) past the
reentrancy guard, up to and including issuing the ai.live.connect call:
reset the error, enter CONNECTING, set the recording-active latch, switch
to the live tab, reset the audio blob when the transcript is empty,
(re)open the audio context, acquire or reuse the microphone stream, start
the recorder if inactive, and issue the connect call (a new transport
handle: connectCount increments, the open callback becomes pending). -/
def startSessionBody (s : AppState) : AppState :=
  let s1 := { s with errorMsg := none, status := .CONNECTING,
                     isRecordingActive := true, activeTab := .live }
  let s2 :=
    if s1.liveTranscript = [] then { s1 with audioBlob := none, audioChunks := 0 } else s1
  let s3 := { s2 with audioContextOpen := true }
  let s4 := { s3 with micStreamActive := true }
  let s5 := if s4.recorderActive then s4 else { s4 with recorderActive := true }
  { s5 with connectCount := s5.connectCount + 1, connectPending := true }

/-- startSession (src/App.tsx line 128): the reentrancy guard at line 129
returns immediately when the status is already CONNECTING or CONNECTED. -/
def startSessionStep (s : AppState) : AppState :=
  if s.status = .CONNECTING ∨ s.status = .CONNECTED then s else startSessionBody s

/-- The onopen callback (src/App.tsx lines 196-230): only a pending
connect can open; it sets CONNECTED, wires the source node and the script
processor to the session, and resolves the session handle. -/
def onopenStep (s : AppState) : AppState :=
  if s.connectPending then
    { s with status := .CONNECTED, connectPending := false, sessionLive := true,
             sourceNodeConnected := true, processorConnected := true }
  else s

/-- The onclose callback (src/App.tsx lines 249-264), delivered only for
an existing transport handle (live or still connecting); the transport
delivers no further open event for a closed handle, so the pending flag is
cleared.  Partial cleanup, then: if the recording latch is set,
auto-reconnect after a fixed 500 ms timer; otherwise DISCONNECTED and the
recording is published. -/
def oncloseStep (newId ts : String) (s : AppState) : AppState :=
  if s.sessionLive || s.connectPending then
    let s1 := cleanupSession newId ts false { s with connectPending := false }
    if s1.isRecordingActive then
      { s1 with status := .CONNECTING, reconnectDelay := some 500 }
    else
      finalizeRecording { s1 with status := .DISCONNECTED }
  else s

/-- The onerror callback (src/App.tsx lines 265-276): with the recording
latch set, partial cleanup and a fixed 1000 ms reconnect timer (the status
is not changed on this path); otherwise an error message and a full user
stop. -/
def onerrorStep (newId ts : String) (s : AppState) : AppState :=
  if s.sessionLive || s.connectPending then
    let s0 := { s with connectPending := false }
    if s0.isRecordingActive then
      let s1 := cleanupSession newId ts false s0
      { s1 with reconnectDelay := some 1000 }
    else
      stopUserAction newId ts { s0 with errorMsg := some "Błąd połączenia. Sesja zakończona." }
  else s

/-- A pending reconnect timer firing (the setTimeout of
src/App.tsx lines 257-259 and 269-271).  The scheduled callback is the
startSession closure created in the render that initiated recording; the
status value that closure captured is DISCONNECTED or ERROR (the start
button is only rendered in those states), so the reentrancy guard inside
the scheduled callback always passes and the body runs.  The timer handle
is consumed. -/
def timerFireStep (s : AppState) : AppState :=
  if s.reconnectDelay.isSome then
    startSessionBody { s with reconnectDelay := none }
  else s

/-- The onaudioprocess callback (src/App.tsx lines 212-226): for each
4096-sample block it publishes the RMS volume v and pushes one resampled
audio frame through the session send path. -/
def audioTickStep (v : ℚ) (s : AppState) : AppState :=
  if s.processorConnected then
    let s1 := { s with volume := v }
    if s1.sessionLive then { s1 with sentFrames := s1.sentFrames ++ [.audio] } else s1
  else s

/-- The onmessage callback lifted to the full app state. -/
def onmessageStep (newId ts : String) (msg : ServerMessage) (s : AppState) : AppState :=
  let r := onmessage newId ts msg ⟨s.currentInputTrans, s.liveTranscript⟩
  { s with currentInputTrans := r.currentInputTrans, liveTranscript := r.liveTranscript }

/-- The events that drive the session lifecycle: the two user actions, the
reconnect timer and the audio clock, and the transport callbacks. -/
inductive Event
  | userStart
  | userStop (newId ts : String)
  | timerFire
  | openEvt
  | closeEvt (newId ts : String)
  | errorEvt (newId ts : String)
  | msgEvt (newId ts : String) (msg : ServerMessage)
  | audioTick (v : ℚ)
deriving DecidableEq, Repr

/-- One event dispatched to its handler. -/
def step : Event → AppState → AppState
  | .userStart => startSessionStep
  | .userStop i t => stopUserAction i t
  | .timerFire => timerFireStep
  | .openEvt => onopenStep
  | .closeEvt i t => oncloseStep i t
  | .errorEvt i t => onerrorStep i t
  | .msgEvt i t m => onmessageStep i t m
  | .audioTick v => audioTickStep v

/-- A run: a list of events applied in order. -/
def run (evs : List Event) (s : AppState) : AppState :=
  evs.foldl (fun st e => step e st) s

/-- Whether an event is the explicit user start action. -/
def Event.isUserStart : Event → Bool
  | .userStart => true
  | _ => false

/-- The freshly mounted app state (initial useState and useRef values of
src/App.tsx lines 29-59). -/
def initState : AppState :=
  { status := .DISCONNECTED, errorMsg := none, activeTab := .live, liveTranscript := [],
    currentInputTrans := "", isRecordingActive := false, reconnectDelay := none,
    audioContextOpen := false, micStreamActive := false, sourceNodeConnected := false,
    processorConnected := false, recorderActive := false, audioChunks := 0,
    mimeType := "audio/webm", audioBlob := none, sessionLive := false,
    connectPending := false, connectCount := 0, volume := 0, sentFrames := [] }

/-- A representative state of an established recording session, used as
the concrete input of several witnesses. -/
def connectedState : AppState :=
  { initState with status := .CONNECTED, isRecordingActive := true, sessionLive := true,
                   micStreamActive := true, audioContextOpen := true, recorderActive := true,
                   sourceNodeConnected := true, processorConnected := true,
                   audioChunks := 3, connectCount := 1 }

/-- A state with a scheduled reconnect pending: the previous transport
attempt already ended (its close or error callback ran, so no open
callback is still pending) and its handler scheduled the 500 ms timer. -/
def pendingReconnectState : AppState :=
  { initState with status := .CONNECTING, isRecordingActive := true,
                   micStreamActive := true, recorderActive := true, audioChunks := 2,
                   reconnectDelay := some 500, connectCount := 1 }

/-- A run with six consecutive failed reconnect cycles after the initial
user start: each transport attempt closes unexpectedly and the scheduled
timer fires the next attempt; a seventh close follows. -/
def exhaustEvents : List Event :=
  [.userStart,
   .closeEvt "c1" "t1", .timerFire,
   .closeEvt "c2" "t2", .timerFire,
   .closeEvt "c3" "t3", .timerFire,
   .closeEvt "c4" "t4", .timerFire,
   .closeEvt "c5" "t5", .timerFire,
   .closeEvt "c6" "t6", .timerFire,
   .closeEvt "c7" "t7"]

/-- The backoff formula asserted by the claim (spec section 4.5):
min(maxDelay, baseDelay times multiplier to the attempt), with
baseDelay 1000 ms, multiplier 2, maxDelay 30000 ms. -/
def claimedBackoffDelay (n : Nat) : Nat := min 30000 (1000 * 2 ^ n)

/-- Nearest-integer rounding of num / den, halves rounding up. -/
def natRound (num den : Nat) : Nat := (2 * num + den) / (2 * den)

/-- Modelled from the spec: resampleTo16k lives in src/utils/audioUtils.ts,
which src/App.tsx imports but which is absent from src/.  Spec section 4.1:
deterministic linear interpolation with output length equal to
round(len(samples) times targetRate / sourceRate).  Samples are modelled
as rationals. -/
def resample (samples : List ℚ) (sourceRate targetRate : Nat) : List ℚ :=
  let outLen := natRound (samples.length * targetRate) sourceRate
  (List.range outLen).map (fun (i : Nat) =>
    let pos : ℚ := (i : ℚ) * (sourceRate : ℚ) / (targetRate : ℚ)
    let j := (Rat.floor pos).toNat
    let a := samples.getD j 0
    let b := samples.getD (j + 1) a
    a + (pos - (j : ℚ)) * (b - a))

theorem append_ne_empty_right (a b : String) (h : b ≠ "") : a ++ b ≠ "" := by
  intro hab
  apply h
  have hl := congrArg String.length hab
  rw [String.length_append] at hl
  have h0 : ("" : String).length = 0 := rfl
  have hb : b.length = 0 := by omega
  cases b with
  | mk data =>
    cases data with
    | nil => rfl
    | cons c cs => simp [String.length] at hb

theorem onmessage_delta_accLike (i t d b : String) (s : ReconcilerState)
    (hs : accLike b s) : accLike (b ++ d) (onmessage i t ⟨some d, false⟩ s) := by
  obtain ⟨hbuf, hcase⟩ := hs
  by_cases hd : d = ""
  · subst hd
    rw [String.append_empty]
    simpa [onmessage] using ⟨hbuf, hcase⟩
  · refine ⟨by simp [onmessage, hd, hbuf], Or.inr ⟨append_ne_empty_right b d hd, ?_⟩⟩
    rcases hcase with ⟨hb0, hnil⟩ | ⟨hbne, i0, t0, hone⟩
    · exact ⟨i, t, by simp [onmessage, hd, hbuf, hnil, updateLiveTranscript]⟩
    · exact ⟨i0, t0, by simp [onmessage, hd, hbuf, hone, updateLiveTranscript]⟩

theorem runDeltas_accLike (sup : Nat → String × String) (deltas : List String) :
    ∀ (k : Nat) (b : String) (s : ReconcilerState), accLike b s →
      accLike (deltas.foldl (fun a d => a ++ d) b) (runDeltas sup k deltas s) := by
  induction deltas with
  | nil => intro k b s hs; simpa [runDeltas] using hs
  | cons d ds ih =>
      intro k b s hs
      simp only [runDeltas, List.foldl_cons]
      exact ih (k + 1) (b ++ d) _ (onmessage_delta_accLike _ _ _ _ _ hs)

theorem onmessage_turnComplete_final (i t b : String) (s : ReconcilerState)
    (hb : b ≠ "") (hs : accLike b s) :
    ∃ i0 t0, onmessage i t ⟨none, true⟩ s =
      ⟨"", [{ id := i0, timestamp := t0, speaker := .user, text := b,
              isPartial := false }]⟩ := by
  obtain ⟨hbuf, hcase⟩ := hs
  rcases hcase with ⟨hb0, _⟩ | ⟨_, i0, t0, hone⟩
  · exact absurd hb0 hb
  · exact ⟨i0, t0, by simp [onmessage, hbuf, hb, hone, updateLiveTranscript]⟩

/-- Claim C1: for every sequence of partial-text deltas for one speaker
followed by a turn-complete signal, starting from the initial reconciler
state, the reconciler produces exactly one transcript entry whose final
text is the concatenation of the deltas in arrival order, with isPartial
false (scenario: deltas Cześ then ć followed by turnComplete yield one
finalized entry Cześć).  The hypothesis excludes only the degenerate
all-empty-delta sequence, whose concatenation is the empty string, falsy
in the source. -/
theorem reconciler_single_finalized_entry (sup : Nat → String × String) (i t : String)
    (deltas : List String)
    (h : deltas.foldl (fun a d => a ++ d) "" ≠ "") :
    ∃ i0 t0,
      onmessage i t ⟨none, true⟩ (runDeltas sup 0 deltas initialReconciler) =
        ⟨"", [{ id := i0, timestamp := t0, speaker := .user,
                text := deltas.foldl (fun a d => a ++ d) "", isPartial := false }]⟩ := by
  have hinit : accLike "" initialReconciler := ⟨rfl, Or.inl ⟨rfl, rfl⟩⟩
  exact onmessage_turnComplete_final i t _ _ h
    (runDeltas_accLike sup deltas 0 "" initialReconciler hinit)

theorem reconciler_single_finalized_entry_witness :
    (["Cześ", "ć"].foldl (fun a d => a ++ d) "" = "Cześć") ∧
    ∃ i0 t0,
      onmessage "i9" "t9" ⟨none, true⟩
          (runDeltas (fun k => (toString k, toString k)) 0 ["Cześ", "ć"]
            initialReconciler) =
        ⟨"", [{ id := i0, timestamp := t0, speaker := .user,
                text := ["Cześ", "ć"].foldl (fun a d => a ++ d) "",
                isPartial := false }]⟩ :=
  ⟨by decide,
   reconciler_single_finalized_entry (fun k => (toString k, toString k)) "i9" "t9"
     ["Cześ", "ć"] (by decide)⟩

/-- Claim C10: a turn-complete signal arriving while the accumulation
buffer is empty creates and modifies no transcript entry, and a message
whose inputTranscription text is empty or absent leaves both the buffer
and the transcript unchanged (when a turn-complete accompanies such a
message, the buffer-empty condition of the first part applies, since
otherwise the turn-complete itself finalizes the open entry as claim C1
requires). -/
theorem empty_message_noop (newId ts : String) (msg : ServerMessage) (s : ReconcilerState)
    (htext : msg.inputTranscription = none ∨ msg.inputTranscription = some "")
    (hbuf : msg.turnComplete = true → s.currentInputTrans = "") :
    onmessage newId ts msg s = s := by
  rcases htext with h | h <;> cases hm : msg.turnComplete
  · simp [onmessage, h, hm]
  · simp [onmessage, h, hm, hbuf hm]
  · simp [onmessage, h, hm]
  · simp [onmessage, h, hm, hbuf hm]

theorem empty_message_noop_witness :
    onmessage "i0" "t0" ⟨none, true⟩ ⟨"", []⟩ = (⟨"", []⟩ : ReconcilerState) :=
  empty_message_noop "i0" "t0" ⟨none, true⟩ ⟨"", []⟩ (Or.inl rfl) (fun _ => rfl)

/-- Claim C8: every transcript mutation (delta arrival, turn-complete and
session teardown all go through updateLiveTranscript) preserves the
invariant that at most the trailing entry is partial, and never turns a
final entry back into a partial one: every already-final entry survives at
its position unchanged. -/
theorem getElem?_lt_length {α : Type} (l : List α) (i : Nat) (e : α)
    (h : l[i]? = some e) : i < l.length := by
  by_contra hc
  push_neg at hc
  rw [List.getElem?_eq_none hc] at h
  exact Option.noConfusion h

theorem transcript_partial_invariant (newId ts text : String) (isFinal : Bool)
    (prev : List TranscriptEntry)
    (hinv : ∀ e ∈ prev.dropLast, e.isPartial = false) :
    (∀ e ∈ (updateLiveTranscript newId ts text isFinal prev).dropLast,
        e.isPartial = false) ∧
    (∀ (i : Nat) (e : TranscriptEntry), prev[i]? = some e → e.isPartial = false →
        (updateLiveTranscript newId ts text isFinal prev)[i]? = some e) := by
  rcases List.eq_nil_or_concat prev with hnil | ⟨init, last, hconcat⟩
  · subst hnil
    refine ⟨?_, ?_⟩
    · intro e he
      simp [updateLiveTranscript] at he
    · intro i e hi
      simp at hi
  · rw [List.concat_eq_append] at hconcat
    subst hconcat
    rw [List.dropLast_concat] at hinv
    by_cases hlp : last.isPartial = true
    · obtain ⟨last2, hred⟩ :
          ∃ last2 : TranscriptEntry,
            updateLiveTranscript newId ts text isFinal (init ++ [last]) =
              init ++ [last2] := by
        cases isFinal
        · exact ⟨{ last with text := text }, by
            simp [updateLiveTranscript, List.getLast?_concat, List.dropLast_concat, hlp]⟩
        · exact ⟨{ last with text := text, isPartial := false }, by
            simp [updateLiveTranscript, List.getLast?_concat, List.dropLast_concat, hlp]⟩
      rw [hred]
      refine ⟨?_, ?_⟩
      · intro e he
        rw [List.dropLast_concat] at he
        exact hinv e he
      · intro i e hi hfin
        have hi2 : i < (init ++ [last]).length := getElem?_lt_length _ i e hi
        simp only [List.length_append, List.length_cons, List.length_nil] at hi2
        rcases Nat.lt_or_ge i init.length with hlt | hge
        · rw [List.getElem?_append, if_pos hlt] at hi
          rw [List.getElem?_append, if_pos hlt]
          exact hi
        · have hieq : i = init.length := by omega
          rw [List.getElem?_append, if_neg (by omega), hieq, Nat.sub_self] at hi
          simp at hi
          rw [← hi] at hfin
          rw [hlp] at hfin
          exact absurd hfin (by simp)
    · have hred : updateLiveTranscript newId ts text isFinal (init ++ [last]) =
          (init ++ [last]) ++
            [{ id := newId, timestamp := ts, speaker := .user, text := text,
               isPartial := !isFinal }] := by
        simp [updateLiveTranscript, List.getLast?_concat, hlp]
      rw [hred]
      refine ⟨?_, ?_⟩
      · intro e he
        rw [List.dropLast_concat] at he
        rcases List.mem_append.mp he with hin | hl
        · exact hinv e hin
        · rw [List.mem_singleton] at hl
          subst hl
          simpa using hlp
      · intro i e hi hfin
        have hi2 : i < (init ++ [last]).length := getElem?_lt_length _ i e hi
        rw [List.getElem?_append, if_pos hi2]
        exact hi

theorem cleanupSession_fields (i t : String) (fs : Bool) (s : AppState) :
    (cleanupSession i t fs s).isRecordingActive = s.isRecordingActive ∧
    (cleanupSession i t fs s).reconnectDelay = none ∧
    (cleanupSession i t fs s).status = s.status ∧
    (cleanupSession i t fs s).connectPending = s.connectPending ∧
    (cleanupSession i t fs s).connectCount = s.connectCount ∧
    (cleanupSession i t fs s).sessionLive = false ∧
    (cleanupSession i t fs s).errorMsg = s.errorMsg ∧
    (cleanupSession i t fs s).audioChunks = s.audioChunks ∧
    (cleanupSession i t fs s).sentFrames = s.sentFrames := by
  simp only [cleanupSession]
  split_ifs <;> simp

theorem finalizeRecording_fields (s : AppState) :
    (finalizeRecording s).isRecordingActive = s.isRecordingActive ∧
    (finalizeRecording s).reconnectDelay = s.reconnectDelay ∧
    (finalizeRecording s).status = s.status ∧
    (finalizeRecording s).connectPending = s.connectPending ∧
    (finalizeRecording s).connectCount = s.connectCount ∧
    (finalizeRecording s).sessionLive = s.sessionLive ∧
    (finalizeRecording s).micStreamActive = s.micStreamActive ∧
    (finalizeRecording s).audioContextOpen = s.audioContextOpen ∧
    (finalizeRecording s).recorderActive = s.recorderActive ∧
    (finalizeRecording s).sentFrames = s.sentFrames := by
  simp only [finalizeRecording]
  split_ifs <;> simp

theorem stopUserAction_fields (i t : String) (s : AppState) :
    (stopUserAction i t s).isRecordingActive = false ∧
    (stopUserAction i t s).reconnectDelay = none ∧
    (stopUserAction i t s).status = .DISCONNECTED ∧
    (stopUserAction i t s).connectPending = s.connectPending ∧
    (stopUserAction i t s).connectCount = s.connectCount ∧
    (stopUserAction i t s).sessionLive = false ∧
    (stopUserAction i t s).micStreamActive = false ∧
    (stopUserAction i t s).audioContextOpen = false ∧
    (stopUserAction i t s).recorderActive = false ∧
    (stopUserAction i t s).sentFrames = s.sentFrames := by
  simp only [stopUserAction, cleanupSession, finalizeRecording]
  split_ifs <;> simp

theorem startSessionBody_fields (s : AppState) :
    (startSessionBody s).status = .CONNECTING ∧
    (startSessionBody s).isRecordingActive = true ∧
    (startSessionBody s).connectPending = true ∧
    (startSessionBody s).reconnectDelay = s.reconnectDelay ∧
    (startSessionBody s).connectCount = s.connectCount + 1 ∧
    (startSessionBody s).sentFrames = s.sentFrames := by
  simp only [startSessionBody]
  split_ifs <;> simp

/-- Claim C5: calling startSession while the status is already CONNECTING
or CONNECTED is a no-op: the reentrancy guard returns the state unchanged,
so no second transport handle is created (connectCount unchanged), no
audio resource is re-acquired and every field is left as it was. -/
theorem start_reentrancy_noop (s : AppState)
    (h : s.status = .CONNECTING ∨ s.status = .CONNECTED) :
    step .userStart s = s ∧ (step .userStart s).connectCount = s.connectCount := by
  have h1 : step .userStart s = s := by
    show startSessionStep s = s
    rw [startSessionStep, if_pos h]
  exact ⟨h1, by rw [h1]⟩

theorem start_reentrancy_noop_witness :
    step .userStart connectedState = connectedState ∧
    (step .userStart connectedState).connectCount = connectedState.connectCount :=
  start_reentrancy_noop connectedState (Or.inr rfl)

theorem stopUserAction_eq (i t : String) (s : AppState) :
    stopUserAction i t s =
      { status := .DISCONNECTED, errorMsg := s.errorMsg, activeTab := s.activeTab,
        liveTranscript :=
          if s.currentInputTrans ≠ "" then
            updateLiveTranscript i t s.currentInputTrans true s.liveTranscript
          else s.liveTranscript,
        currentInputTrans := "", isRecordingActive := false, reconnectDelay := none,
        audioContextOpen := false, micStreamActive := false,
        sourceNodeConnected := false, processorConnected := false,
        recorderActive := false, audioChunks := s.audioChunks, mimeType := s.mimeType,
        audioBlob :=
          if s.audioChunks > 0 then some (s.audioChunks, s.mimeType) else s.audioBlob,
        sessionLive := false, connectPending := s.connectPending,
        connectCount := s.connectCount, volume := 0, sentFrames := s.sentFrames } := by
  cases s
  simp only [stopUserAction, cleanupSession, finalizeRecording]
  split_ifs <;> simp_all

/-- Claim C6: stopUserAction is idempotent: a second stop returns exactly
the state of the first, and the stopped state has status DISCONNECTED,
microphone stopped, audio context closed, transport handle closed,
recorder stopped, recording latch false and the pending reconnect timer
cleared. -/
theorem stop_idempotent (i1 t1 i2 t2 : String) (s : AppState) :
    stopUserAction i2 t2 (stopUserAction i1 t1 s) = stopUserAction i1 t1 s ∧
    (stopUserAction i1 t1 s).status = .DISCONNECTED ∧
    (stopUserAction i1 t1 s).isRecordingActive = false ∧
    (stopUserAction i1 t1 s).micStreamActive = false ∧
    (stopUserAction i1 t1 s).audioContextOpen = false ∧
    (stopUserAction i1 t1 s).recorderActive = false ∧
    (stopUserAction i1 t1 s).sessionLive = false ∧
    (stopUserAction i1 t1 s).reconnectDelay = none := by
  obtain ⟨f1, f2, f3, f4, f5, f6, f7, f8, f9, f10⟩ := stopUserAction_fields i1 t1 s
  refine ⟨?_, f3, f1, f7, f8, f9, f6, f2⟩
  rw [stopUserAction_eq i1 t1 s, stopUserAction_eq i2 t2]
  by_cases hc : s.audioChunks > 0 <;> simp [hc]

theorem transcript_partial_invariant_witness :
    (∀ e ∈ (updateLiveTranscript "i1" "t1" "xy" true
        [⟨"a", "ta", .user, "done", false⟩, ⟨"b", "tb", .user, "x", true⟩]).dropLast,
      e.isPartial = false) ∧
    (∀ (i : Nat) (e : TranscriptEntry),
      ([⟨"a", "ta", .user, "done", false⟩,
        ⟨"b", "tb", .user, "x", true⟩] : List TranscriptEntry)[i]? = some e →
      e.isPartial = false →
      (updateLiveTranscript "i1" "t1" "xy" true
        [⟨"a", "ta", .user, "done", false⟩, ⟨"b", "tb", .user, "x", true⟩])[i]? = some e) :=
  transcript_partial_invariant "i1" "t1" "xy" true
    [⟨"a", "ta", .user, "done", false⟩, ⟨"b", "tb", .user, "x", true⟩] (by decide)

theorem run_cons (e : Event) (es : List Event) (s : AppState) :
    run (e :: es) s = run es (step e s) := rfl

theorem oncloseStep_eq_active (i t : String) (s : AppState)
    (hg : (s.sessionLive || s.connectPending) = true)
    (hrec : s.isRecordingActive = true) :
    oncloseStep i t s =
      { cleanupSession i t false { s with connectPending := false } with
        status := .CONNECTING, reconnectDelay := some 500 } := by
  simp only [oncloseStep]
  rw [if_pos hg]
  have c1 := (cleanupSession_fields i t false { s with connectPending := false }).1
  rw [if_pos (by rw [c1]; exact hrec)]

theorem oncloseStep_eq_inactive (i t : String) (s : AppState)
    (hg : (s.sessionLive || s.connectPending) = true)
    (hrec : s.isRecordingActive = false) :
    oncloseStep i t s =
      finalizeRecording
        { cleanupSession i t false { s with connectPending := false } with
          status := .DISCONNECTED } := by
  simp only [oncloseStep]
  rw [if_pos hg]
  have c1 := (cleanupSession_fields i t false { s with connectPending := false }).1
  rw [if_neg (by rw [c1, hrec]; simp)]

theorem onerrorStep_eq_active (i t : String) (s : AppState)
    (hg : (s.sessionLive || s.connectPending) = true)
    (hrec : s.isRecordingActive = true) :
    onerrorStep i t s =
      { cleanupSession i t false { s with connectPending := false } with
        reconnectDelay := some 1000 } := by
  simp only [onerrorStep]
  rw [if_pos hg]
  rw [if_pos (show ({ s with connectPending := false } : AppState).isRecordingActive = true
    from hrec)]

theorem onerrorStep_eq_inactive (i t : String) (s : AppState)
    (hg : (s.sessionLive || s.connectPending) = true)
    (hrec : s.isRecordingActive = false) :
    onerrorStep i t s =
      stopUserAction i t
        { s with connectPending := false,
                 errorMsg := some "Błąd połączenia. Sesja zakończona." } := by
  simp only [onerrorStep]
  rw [if_pos hg]
  rw [if_neg (show ¬ ({ s with connectPending := false } : AppState).isRecordingActive = true
    by rw [show ({ s with connectPending := false } : AppState).isRecordingActive =
        s.isRecordingActive from rfl, hrec]; simp)]

theorem audioTickStep_fields (v : ℚ) (s : AppState) :
    (audioTickStep v s).isRecordingActive = s.isRecordingActive ∧
    (audioTickStep v s).reconnectDelay = s.reconnectDelay ∧
    (audioTickStep v s).status = s.status ∧
    (audioTickStep v s).connectPending = s.connectPending ∧
    (audioTickStep v s).connectCount = s.connectCount := by
  simp only [audioTickStep]
  split_ifs <;> simp

theorem step_preserves_stopped (e : Event) (s : AppState)
    (he : e.isUserStart = false)
    (h1 : s.isRecordingActive = false) (h2 : s.reconnectDelay = none)
    (h3 : s.status = .DISCONNECTED) (h4 : s.connectPending = false) :
    (step e s).isRecordingActive = false ∧ (step e s).reconnectDelay = none ∧
    (step e s).status = .DISCONNECTED ∧ (step e s).connectPending = false ∧
    (step e s).connectCount = s.connectCount := by
  cases e with
  | userStart => simp [Event.isUserStart] at he
  | userStop i t =>
      obtain ⟨f1, f2, f3, f4, f5, _⟩ := stopUserAction_fields i t s
      exact ⟨f1, f2, f3, f4.trans h4, f5⟩
  | timerFire =>
      have hstep : step Event.timerFire s = s := by
        show timerFireStep s = s
        simp [timerFireStep, h2]
      rw [hstep]
      exact ⟨h1, h2, h3, h4, rfl⟩
  | openEvt =>
      have hstep : step Event.openEvt s = s := by
        show onopenStep s = s
        simp [onopenStep, h4]
      rw [hstep]
      exact ⟨h1, h2, h3, h4, rfl⟩
  | closeEvt i t =>
      show (oncloseStep i t s).isRecordingActive = false ∧
        (oncloseStep i t s).reconnectDelay = none ∧
        (oncloseStep i t s).status = .DISCONNECTED ∧
        (oncloseStep i t s).connectPending = false ∧
        (oncloseStep i t s).connectCount = s.connectCount
      by_cases hg : (s.sessionLive || s.connectPending) = true
      · rw [oncloseStep_eq_inactive i t s hg h1]
        obtain ⟨c1, c2, c3, c4, c5, _⟩ :=
          cleanupSession_fields i t false { s with connectPending := false }
        refine ⟨?_, ?_, ?_, ?_, ?_⟩
        · rw [(finalizeRecording_fields _).1]; exact c1.trans h1
        · rw [(finalizeRecording_fields _).2.1]; exact c2
        · rw [(finalizeRecording_fields _).2.2.1]
        · rw [(finalizeRecording_fields _).2.2.2.1]; exact c4
        · rw [(finalizeRecording_fields _).2.2.2.2.1]; exact c5
      · have hstep : oncloseStep i t s = s := by
          simp only [oncloseStep]
          rw [if_neg hg]
        rw [hstep]
        exact ⟨h1, h2, h3, h4, rfl⟩
  | errorEvt i t =>
      show (onerrorStep i t s).isRecordingActive = false ∧
        (onerrorStep i t s).reconnectDelay = none ∧
        (onerrorStep i t s).status = .DISCONNECTED ∧
        (onerrorStep i t s).connectPending = false ∧
        (onerrorStep i t s).connectCount = s.connectCount
      by_cases hg : (s.sessionLive || s.connectPending) = true
      · rw [onerrorStep_eq_inactive i t s hg h1]
        obtain ⟨f1, f2, f3, f4, f5, _⟩ :=
          stopUserAction_fields i t
            { s with connectPending := false,
                     errorMsg := some "Błąd połączenia. Sesja zakończona." }
        exact ⟨f1, f2, f3, f4, f5⟩
      · have hstep : onerrorStep i t s = s := by
          simp only [onerrorStep]
          rw [if_neg hg]
        rw [hstep]
        exact ⟨h1, h2, h3, h4, rfl⟩
  | msgEvt i t m =>
      exact ⟨h1, h2, h3, h4, rfl⟩
  | audioTick v =>
      obtain ⟨a1, a2, a3, a4, a5⟩ := audioTickStep_fields v s
      exact ⟨a1.trans h1, a2.trans h2, a3.trans h3, a4.trans h4, a5⟩

theorem run_preserves_stopped (evs : List Event) :
    ∀ s : AppState, (∀ e ∈ evs, e.isUserStart = false) →
      s.isRecordingActive = false → s.reconnectDelay = none →
      s.status = .DISCONNECTED → s.connectPending = false →
      (run evs s).isRecordingActive = false ∧ (run evs s).reconnectDelay = none ∧
      (run evs s).status = .DISCONNECTED ∧ (run evs s).connectPending = false ∧
      (run evs s).connectCount = s.connectCount := by
  induction evs with
  | nil =>
      intro s _ h1 h2 h3 h4
      exact ⟨h1, h2, h3, h4, rfl⟩
  | cons e es ih =>
      intro s hall h1 h2 h3 h4
      have he := hall e (List.mem_cons_self e es)
      obtain ⟨p1, p2, p3, p4, p5⟩ := step_preserves_stopped e s he h1 h2 h3 h4
      obtain ⟨q1, q2, q3, q4, q5⟩ :=
        ih (step e s) (fun e2 h => hall e2 (List.mem_cons_of_mem _ h)) p1 p2 p3 p4
      rw [run_cons]
      exact ⟨q1, q2, q3, q4, q5.trans p5⟩

/-- Claim C7: a user stop while a reconnect timer is pending cancels the
timer, and in any continuation made of non-user-start events (timer
expiry, stale transport callbacks, audio ticks, further stops) no further
transport connect call ever occurs and the connection state stays
DISCONNECTED.  The connectPending hypothesis states the scenario: a timer
is only pending after the previous attempt ended through its close or
error callback, so no open callback is still outstanding. -/
theorem stop_cancels_pending_reconnect (i t : String) (s : AppState) (d : Nat)
    (_hd : s.reconnectDelay = some d) (hp : s.connectPending = false)
    (evs : List Event) (hevs : ∀ e ∈ evs, e.isUserStart = false) :
    (stopUserAction i t s).reconnectDelay = none ∧
    (stopUserAction i t s).status = .DISCONNECTED ∧
    (run evs (stopUserAction i t s)).connectCount = (stopUserAction i t s).connectCount ∧
    (run evs (stopUserAction i t s)).status = .DISCONNECTED ∧
    (run evs (stopUserAction i t s)).reconnectDelay = none := by
  obtain ⟨f1, f2, f3, f4, f5, _⟩ := stopUserAction_fields i t s
  obtain ⟨q1, q2, q3, q4, q5⟩ :=
    run_preserves_stopped evs (stopUserAction i t s) hevs f1 f2 f3 (f4.trans hp)
  exact ⟨f2, f3, q5, q3, q2⟩

theorem stop_cancels_pending_reconnect_witness :
    (stopUserAction "i" "t" pendingReconnectState).reconnectDelay = none ∧
    (stopUserAction "i" "t" pendingReconnectState).status = .DISCONNECTED ∧
    (run [.timerFire, .closeEvt "c" "ct", .errorEvt "e" "et"]
        (stopUserAction "i" "t" pendingReconnectState)).connectCount =
      (stopUserAction "i" "t" pendingReconnectState).connectCount ∧
    (run [.timerFire, .closeEvt "c" "ct", .errorEvt "e" "et"]
        (stopUserAction "i" "t" pendingReconnectState)).status = .DISCONNECTED ∧
    (run [.timerFire, .closeEvt "c" "ct", .errorEvt "e" "et"]
        (stopUserAction "i" "t" pendingReconnectState)).reconnectDelay = none :=
  stop_cancels_pending_reconnect "i" "t" pendingReconnectState 500 rfl rfl
    [.timerFire, .closeEvt "c" "ct", .errorEvt "e" "et"] (by decide)

/-- Claim C2 counterexample: on an unexpected close of an established
recording session at attempt count 0 the code schedules the reconnect
after a fixed 500 ms, while the claimed formula
min(maxDelay, baseDelay times multiplier to the n) gives
delay(0) = baseDelay = 1000 ms; the computed delay does not equal the
claimed backoff. -/
theorem backoff_formula_counterexample :
    (step (.closeEvt "i" "t") connectedState).reconnectDelay = some 500 ∧
    claimedBackoffDelay 0 = 1000 ∧ (500 : Nat) ≠ 1000 := by
  refine ⟨by decide, by decide, by decide⟩

/-- Claim C2 amended: the code computes no exponential backoff; for every
attempt count the reconnect delay is the constant 500 ms after a close and
the constant 1000 ms after an error while the recording latch is set
(hence trivially non-decreasing in the attempt count and below the 30000
ms cap of the claim, but delay(0) is not baseDelay = 1000 on the close
path). -/
theorem reconnect_delay_constant (i t : String) (s : AppState)
    (hrec : s.isRecordingActive = true)
    (hs : s.sessionLive = true ∨ s.connectPending = true) :
    (step (.closeEvt i t) s).reconnectDelay = some 500 ∧
    (step (.errorEvt i t) s).reconnectDelay = some 1000 ∧
    500 ≤ 30000 ∧ 1000 ≤ 30000 := by
  have hg : (s.sessionLive || s.connectPending) = true := by
    rcases hs with h | h <;> simp [h]
  refine ⟨?_, ?_, by decide, by decide⟩
  · show (oncloseStep i t s).reconnectDelay = some 500
    rw [oncloseStep_eq_active i t s hg hrec]
  · show (onerrorStep i t s).reconnectDelay = some 1000
    rw [onerrorStep_eq_active i t s hg hrec]

theorem reconnect_delay_constant_witness :
    (step (.closeEvt "i" "t") connectedState).reconnectDelay = some 500 ∧
    (step (.errorEvt "i" "t") connectedState).reconnectDelay = some 1000 ∧
    500 ≤ 30000 ∧ 1000 ≤ 30000 :=
  reconnect_delay_constant "i" "t" connectedState rfl (Or.inl rfl)

/-- Claim C3 counterexample: a concrete run in which six consecutive
automatic reconnect attempts fail (exceeding maxAttempts = 5) with no
successful open: the code has issued seven transport connects, is still
CONNECTING with yet another 500 ms reconnect timer pending, and never
enters the terminal ERROR state. -/
theorem reconnect_exhaustion_counterexample :
    (run exhaustEvents initState).connectCount = 7 ∧
    (run exhaustEvents initState).status = .CONNECTING ∧
    (run exhaustEvents initState).reconnectDelay = some 500 ∧
    (run exhaustEvents initState).status ≠ .ERROR := by decide

/-- Claim C3 amended: the lifecycle manager never stops retrying: while
the recording latch is set, every unexpected close schedules another
reconnect (500 ms timer, state CONNECTING) and a pending timer issues a
new connect when it fires; no event handler ever enters the ERROR state,
so automatic reconnect attempts are unbounded and cease only through the
explicit user stop that clears the latch. -/
theorem reconnect_never_terminal (i t : String) (s : AppState)
    (hrec : s.isRecordingActive = true)
    (hs : s.sessionLive = true ∨ s.connectPending = true) :
    (step (.closeEvt i t) s).status = .CONNECTING ∧
    (step (.closeEvt i t) s).reconnectDelay = some 500 ∧
    (∀ s2 : AppState, s2.reconnectDelay.isSome = true →
        (step .timerFire s2).connectCount = s2.connectCount + 1) ∧
    (∀ (e : Event) (s2 : AppState), s2.status ≠ .ERROR → (step e s2).status ≠ .ERROR) := by
  have hg : (s.sessionLive || s.connectPending) = true := by
    rcases hs with h | h <;> simp [h]
  refine ⟨?_, ?_, ?_, ?_⟩
  · show (oncloseStep i t s).status = .CONNECTING
    rw [oncloseStep_eq_active i t s hg hrec]
  · show (oncloseStep i t s).reconnectDelay = some 500
    rw [oncloseStep_eq_active i t s hg hrec]
  · intro s2 hs2
    show (timerFireStep s2).connectCount = s2.connectCount + 1
    simp only [timerFireStep]
    rw [if_pos hs2]
    exact (startSessionBody_fields _).2.2.2.2.1
  · intro e s2 hne
    cases e with
    | userStart =>
        show (startSessionStep s2).status ≠ .ERROR
        simp only [startSessionStep]
        split_ifs with hgu
        · exact hne
        · rw [(startSessionBody_fields s2).1]; simp
    | userStop i2 t2 =>
        show (stopUserAction i2 t2 s2).status ≠ .ERROR
        rw [(stopUserAction_fields i2 t2 s2).2.2.1]; simp
    | timerFire =>
        show (timerFireStep s2).status ≠ .ERROR
        simp only [timerFireStep]
        split_ifs with hgt
        · rw [(startSessionBody_fields _).1]; simp
        · exact hne
    | openEvt =>
        show (onopenStep s2).status ≠ .ERROR
        simp only [onopenStep]
        split_ifs with hgo
        · simp
        · exact hne
    | closeEvt i2 t2 =>
        show (oncloseStep i2 t2 s2).status ≠ .ERROR
        by_cases hg2 : (s2.sessionLive || s2.connectPending) = true
        · by_cases hr2 : s2.isRecordingActive = true
          · rw [oncloseStep_eq_active i2 t2 s2 hg2 hr2]; simp
          · rw [oncloseStep_eq_inactive i2 t2 s2 hg2 (by simpa using hr2)]
            rw [(finalizeRecording_fields _).2.2.1]
            simp
        · have hstep : oncloseStep i2 t2 s2 = s2 := by
            simp only [oncloseStep]
            rw [if_neg hg2]
          rw [hstep]; exact hne
    | errorEvt i2 t2 =>
        show (onerrorStep i2 t2 s2).status ≠ .ERROR
        by_cases hg2 : (s2.sessionLive || s2.connectPending) = true
        · by_cases hr2 : s2.isRecordingActive = true
          · rw [onerrorStep_eq_active i2 t2 s2 hg2 hr2]
            have c3 := (cleanupSession_fields i2 t2 false
              { s2 with connectPending := false }).2.2.1
            show (cleanupSession i2 t2 false { s2 with connectPending := false }).status ≠ _
            rw [c3]; exact hne
          · rw [onerrorStep_eq_inactive i2 t2 s2 hg2 (by simpa using hr2)]
            rw [(stopUserAction_fields i2 t2 _).2.2.1]; simp
        · have hstep : onerrorStep i2 t2 s2 = s2 := by
            simp only [onerrorStep]
            rw [if_neg hg2]
          rw [hstep]; exact hne
    | msgEvt i2 t2 m => exact hne
    | audioTick v =>
        show (audioTickStep v s2).status ≠ .ERROR
        rw [(audioTickStep_fields v s2).2.2.1]
        exact hne

theorem reconnect_never_terminal_witness :
    (step (.closeEvt "i" "t") connectedState).status = .CONNECTING ∧
    (step (.closeEvt "i" "t") connectedState).reconnectDelay = some 500 ∧
    (∀ s2 : AppState, s2.reconnectDelay.isSome = true →
        (step .timerFire s2).connectCount = s2.connectCount + 1) ∧
    (∀ (e : Event) (s2 : AppState), s2.status ≠ .ERROR → (step e s2).status ≠ .ERROR) :=
  reconnect_never_terminal "i" "t" connectedState rfl (Or.inl rfl)

theorem step_sentFrames (e : Event) (s : AppState) :
    (step e s).sentFrames = s.sentFrames ∨
    (step e s).sentFrames = s.sentFrames ++ [FrameKind.audio] := by
  cases e with
  | userStart =>
      left
      show (startSessionStep s).sentFrames = s.sentFrames
      simp only [startSessionStep]
      split_ifs
      · rfl
      · exact (startSessionBody_fields s).2.2.2.2.2
  | userStop i t => exact Or.inl (stopUserAction_fields i t s).2.2.2.2.2.2.2.2.2
  | timerFire =>
      left
      show (timerFireStep s).sentFrames = s.sentFrames
      simp only [timerFireStep]
      split_ifs
      · exact (startSessionBody_fields _).2.2.2.2.2
      · rfl
  | openEvt =>
      left
      show (onopenStep s).sentFrames = s.sentFrames
      simp only [onopenStep]
      split_ifs <;> rfl
  | closeEvt i t =>
      left
      show (oncloseStep i t s).sentFrames = s.sentFrames
      simp only [oncloseStep]
      split_ifs with hg hr
      · exact (cleanupSession_fields i t false _).2.2.2.2.2.2.2.2
      · exact ((finalizeRecording_fields _).2.2.2.2.2.2.2.2.2).trans
          ((cleanupSession_fields i t false _).2.2.2.2.2.2.2.2)
      · rfl
  | errorEvt i t =>
      left
      show (onerrorStep i t s).sentFrames = s.sentFrames
      simp only [onerrorStep]
      split_ifs with hg hr
      · exact (cleanupSession_fields i t false _).2.2.2.2.2.2.2.2
      · exact (stopUserAction_fields i t _).2.2.2.2.2.2.2.2.2
      · rfl
  | msgEvt i t m => exact Or.inl rfl
  | audioTick v =>
      show (audioTickStep v s).sentFrames = s.sentFrames ∨
        (audioTickStep v s).sentFrames = s.sentFrames ++ [FrameKind.audio]
      simp only [audioTickStep]
      split_ifs
      · exact Or.inr rfl
      · exact Or.inl rfl
      · exact Or.inl rfl

/-- Claim C4 (evaluation of the code): the code contains no keep-alive
scheduler at all: no event handler ever pushes a keep-alive frame through
the session send path, in any state and under any run; the only frames
ever sent are the real audio frames of the onaudioprocess callback.  The
README feature list and spec section 4.6 require a minimal silent frame
whenever a Connected session has been idle past the keep-alive window, so
the code contradicts its own documentation there. -/
theorem keep_alive_never_sent (evs : List Event) (s : AppState)
    (h : FrameKind.keepAlive ∉ s.sentFrames) :
    FrameKind.keepAlive ∉ (run evs s).sentFrames := by
  induction evs generalizing s with
  | nil => exact h
  | cons e es ih =>
      rw [run_cons]
      refine ih (step e s) ?_
      rcases step_sentFrames e s with he | he <;> rw [he]
      · exact h
      · intro hmem
        rcases List.mem_append.mp hmem with hmem1 | hmem2
        · exact h hmem1
        · rw [List.mem_singleton] at hmem2
          exact FrameKind.noConfusion hmem2

theorem keep_alive_never_sent_witness :
    FrameKind.keepAlive ∉
      (run [.userStart, .openEvt, .audioTick 1, .audioTick 0] initState).sentFrames :=
  keep_alive_never_sent [.userStart, .openEvt, .audioTick 1, .audioTick 0] initState
    (by decide)

theorem resample_length (samples : List ℚ) (sourceRate targetRate : Nat) :
    (resample samples sourceRate targetRate).length =
      natRound (samples.length * targetRate) sourceRate := by
  simp only [resample]
  rw [List.length_map, List.length_range]

/-- Claim C9 counterexample: a 4096-sample block resampled from 48000 Hz
to 16000 Hz does not yield 1366 samples: the general contract
length = round(4096 times 16000 / 48000) rounds 1365.33 to 1365, not
1366. -/
theorem resample_length_counterexample :
    (resample (List.replicate 4096 (0 : ℚ)) 48000 16000).length ≠ 1366 := by
  rw [resample_length, List.length_replicate]
  decide

/-- Claim C9 amended: resample applied to a 4096-sample block at source
rate 48000 Hz with target rate 16000 Hz returns exactly 1365 samples,
which is round(4096 times 16000 / 48000), consistent with the general
output-length contract. -/
theorem resample_scenario_length (samples : List ℚ) (h : samples.length = 4096) :
    (resample samples 48000 16000).length = 1365 ∧
    natRound (4096 * 16000) 48000 = 1365 := by
  refine ⟨?_, by decide⟩
  rw [resample_length, h]
  decide

theorem resample_scenario_length_witness :
    (resample (List.replicate 4096 (0 : ℚ)) 48000 16000).length = 1365 ∧
    natRound (4096 * 16000) 48000 = 1365 :=
  resample_scenario_length (List.replicate 4096 (0 : ℚ)) (by rw [List.length_replicate])

end LiveTra
